import Mathlib

/-!
Verification development for the axiomterm terminal core.

The Rust sources (`types.rs`, `renderer.rs`, `input.rs`, `app.rs`,
`shell.rs`, `lua_bridge.rs`) are shallowly embedded as executable Lean
definitions: Rust `Vec` becomes `List`, `usize` becomes `Nat` (the only
arithmetic performed is increments guarded against `usize::MAX`, so no
wrapping occurs), `Option`/`Result` become `Option`/`Except`, and each
`&mut self` method becomes a function returning the updated state
together with its original return value.
-/

namespace Axiomterm

/-- Rust `TerminalColor` from `types.rs`: an RGB triple (u8 components carried as
`Nat`; colors are only stored and compared, never computed with). -/
structure TerminalColor where
  r : Nat
  g : Nat
  b : Nat
deriving DecidableEq, BEq

/-- Rust `CellAttr` from `types.rs`. -/
structure CellAttr where
  bold : Bool := false
  underline : Bool := false
deriving DecidableEq, BEq

/-- Rust `Cell` from `types.rs`. -/
structure Cell where
  ch : Char
  fg : TerminalColor
  bg : TerminalColor
  attrs : CellAttr
deriving DecidableEq, BEq

/-- Rust `Cell::new` from `types.rs`: black background, default attributes. -/
def Cell.new (ch : Char) (fg : TerminalColor) : Cell :=
  { ch := ch, fg := fg, bg := ⟨0, 0, 0⟩, attrs := {} }

/-- Rust `Line` from `types.rs`: an ordered row of cells. -/
structure Line where
  cells : List Cell
deriving DecidableEq, BEq

/-- Rust `Line::from_string` from `types.rs`. -/
def Line.from_string (s : String) (fg : TerminalColor) : Line :=
  { cells := s.toList.map (fun c => Cell.new c fg) }

/-- Rust `Cursor` from `types.rs`. -/
structure Cursor where
  row : Nat := 0
  col : Nat := 0
deriving DecidableEq, BEq

/-- Rust `ScreenMeta` from `types.rs`. -/
structure ScreenMeta where
  dirty : Bool := false
deriving DecidableEq, BEq

/-- Rust `LineImpact` from `types.rs`. -/
inductive LineImpact where
  | single (row : Nat)
  | multi (rows : List Nat)
  | unbounded
deriving DecidableEq, BEq

/-- Rust `OperationMetadata` from `types.rs`. -/
structure OperationMetadata where
  impact : LineImpact
  caused_scroll : Bool
deriving DecidableEq, BEq

/-- Rust `ScreenOperation` from `types.rs`. -/
inductive ScreenOperation where
  | pushLine (line : Line)
  | clear
  | setCursor (cursor : Cursor)
  | updateLine (row : Nat) (line : Line)
deriving DecidableEq, BEq

/-- Rust `OperationCategory` from `types.rs`. -/
inductive OperationCategory where
  | structural
  | visual
  | cursor
deriving DecidableEq, BEq

/-- Rust `ScreenOperation::category` from `types.rs`. -/
def ScreenOperation.category : ScreenOperation → OperationCategory
  | .pushLine _ => .structural
  | .clear => .structural
  | .setCursor _ => .cursor
  | .updateLine _ _ => .visual

/-- Rust `ScreenOperation::metadata` from `types.rs`.  Note that `SetCursor`
carries `Single(0)` impact in the source (with a comment that the cursor
layer handles it separately), not an empty impact. -/
def ScreenOperation.metadata : ScreenOperation → OperationMetadata
  | .pushLine _ => { impact := .unbounded, caused_scroll := true }
  | .clear => { impact := .unbounded, caused_scroll := true }
  | .setCursor _ => { impact := .single 0, caused_scroll := false }
  | .updateLine row _ => { impact := .single row, caused_scroll := false }

/-- Rust `Screen` from `types.rs`. -/
structure Screen where
  lines : List Line
  cursor : Cursor
  meta : ScreenMeta
deriving DecidableEq, BEq

/-- Rust `Screen::new` / `Screen::default` from `types.rs`. -/
def Screen.new : Screen :=
  { lines := [], cursor := {}, meta := {} }

/-- Rust `Screen::push_line` from `types.rs`: appends the line, sets the dirty
flag, and returns the `PushLine` operation. -/
def Screen.push_line (s : Screen) (line : Line) : Screen × ScreenOperation :=
  ({ s with lines := s.lines ++ [line], meta := { dirty := true } },
   .pushLine line)

/-- Rust `Screen::clear` from `types.rs`: empties the lines, resets the cursor,
sets the dirty flag. -/
def Screen.clear (s : Screen) : Screen × ScreenOperation :=
  ({ s with lines := [], cursor := {}, meta := { dirty := true } },
   .clear)

/-- Rust `Screen::set_cursor` from `types.rs`. -/
def Screen.set_cursor (s : Screen) (cursor : Cursor) : Screen × ScreenOperation :=
  ({ s with cursor := cursor, meta := { dirty := true } },
   .setCursor cursor)

/-- Rust `Screen::update_line` from `types.rs`: in-range rows are replaced
(dirty set), `row == lines.len()` falls back to `push_line`, and
`row > lines.len()` appends the line WITHOUT setting the dirty flag. -/
def Screen.update_line (s : Screen) (row : Nat) (line : Line) : Screen × ScreenOperation :=
  if row < s.lines.length then
    ({ s with lines := s.lines.set row line, meta := { dirty := true } },
     .updateLine row line)
  else if row = s.lines.length then
    s.push_line line
  else
    ({ s with lines := s.lines ++ [line] }, .pushLine line)

/-- Rust `TerminalMode` from `types.rs`. -/
inductive TerminalMode where
  | insert
  | normal
  | visual
  | custom (name : String)
deriving DecidableEq, BEq

/-- Rust `TerminalMode::name` from `types.rs`. -/
def TerminalMode.name : TerminalMode → String
  | .insert => "INSERT"
  | .normal => "NORMAL"
  | .visual => "VISUAL"
  | .custom s => s

/-- Rust `TerminalMode::from_str` from `types.rs`: unknown names become
`Custom`, so the result is always `Some`. -/
def TerminalMode.from_str (s : String) : Option TerminalMode :=
  if s = "Insert" ∨ s = "INSERT" then some .insert
  else if s = "Normal" ∨ s = "NORMAL" then some .normal
  else if s = "Visual" ∨ s = "VISUAL" then some .visual
  else some (.custom s)

/-- Rust `Action` from `types.rs`. -/
inductive Action where
  | appendChar (c : Char)
  | backspace
  | delete
  | submit
  | clear
  | moveCursor (dx dy : Int)
  | changeMode (m : TerminalMode)
  | runCommand (cmd : String)
  | noOp
deriving DecidableEq, BEq

/-- Rust `Action::from_str` from `types.rs`.  The Rust byte slices
`&s[11..s.len()-1]` are rendered as `(s.drop 11).dropRight 1`, which
agrees because the matched prefix is 11 ASCII bytes and the matched
suffix `)` is one ASCII byte; `s.len() == 1` is a byte length, rendered
as `utf8ByteSize`. -/
def Action.from_str (s : String) : Option Action :=
  if s = "Backspace" then some .backspace
  else if s = "Delete" then some .delete
  else if s = "Submit" ∨ s = "Enter" then some .submit
  else if s = "Clear" then some .clear
  else if s = "NoOp" then some .noOp
  else if s.startsWith "ChangeMode(" ∧ s.endsWith ")" then
    (TerminalMode.from_str ((s.drop 11).dropRight 1)).map .changeMode
  else if s.startsWith "RunCommand(" ∧ s.endsWith ")" then
    some (.runCommand ((s.drop 11).dropRight 1))
  else if s.startsWith "InsertChar(" ∧ s.endsWith ")" then
    ((s.drop 11).dropRight 1).toList.head?.map .appendChar
  else if s.utf8ByteSize = 1 then
    s.toList.head?.map .appendChar
  else none

/-- Rust `InputEvent` from `types.rs`. -/
inductive InputEvent where
  | key (code : String) (ctrl alt shift : Bool)
  | text (s : String)
deriving DecidableEq, BEq

/-- Rust `BindingTarget` from `types.rs` (`Action` or `Macro(name)`). -/
inductive BindingTarget where
  | action (a : Action)
  | macroRef (name : String)
deriving DecidableEq, BEq

/-- Rust `KeyBinding` from `types.rs`. -/
structure KeyBinding where
  event : InputEvent
  target : BindingTarget
deriving DecidableEq, BEq

/-- Rust `ModeDefinition` from `types.rs`. -/
structure ModeDefinition where
  mode : TerminalMode
  bindings : List KeyBinding
deriving DecidableEq, BEq

/-- Rust `Shortcut` from `types.rs`. -/
structure Shortcut where
  key : String
  cmd : String
deriving DecidableEq, BEq

/-! ### Mutation sequences and operation replay (for the round-trip
property of `types.rs`)

A `Call` is one invocation of a `Screen` mutator from the
`push_line`/`clear`/`update_line` interface; `runCalls` executes a
sequence of calls and collects the operations each mutator returned;
`Screen.applyOp` replays one returned operation through the
corresponding mutator, discarding the operation that replay returns. -/

/-- One call to a `Screen` mutator from the round-trip property's
interface (`push_line` / `clear` / `update_line`). -/
inductive Call where
  | pushLine (line : Line)
  | clear
  | updateLine (row : Nat) (line : Line)
deriving DecidableEq, BEq

/-- Perform one mutator call on a screen, returning the new screen and
the `ScreenOperation` the mutator returned. -/
def applyCall (s : Screen) : Call → Screen × ScreenOperation
  | .pushLine l => s.push_line l
  | .clear => s.clear
  | .updateLine row l => s.update_line row l

/-- Run a sequence of mutator calls from a starting screen, collecting
the returned operations in order. -/
def runCalls : Screen → List Call → Screen × List ScreenOperation
  | s, [] => (s, [])
  | s, c :: cs =>
    let p := applyCall s c
    let q := runCalls p.1 cs
    (q.1, p.2 :: q.2)

/-- Replay one returned operation against a screen by invoking the
mutator it describes. -/
def Screen.applyOp (s : Screen) : ScreenOperation → Screen
  | .pushLine l => (s.push_line l).1
  | .clear => (s.clear).1
  | .setCursor c => (s.set_cursor c).1
  | .updateLine row l => (s.update_line row l).1

/-- Replay a list of returned operations in order. -/
def replayOps : Screen → List ScreenOperation → Screen
  | s, [] => s
  | s, op :: ops => replayOps (s.applyOp op) ops

/-- Returns `true` iff the call, run on screen `s`, does not hit the
silent-append branch of `update_line` (`row > lines.len()`). -/
def callBound (s : Screen) : Call → Bool
  | .updateLine row _ => decide (row ≤ s.lines.length)
  | _ => true

/-- Returns `true` iff every `updateLine` call in the sequence, at the moment it
runs, targets a row at most the current line count. -/
def callsInBounds : Screen → List Call → Bool
  | _, [] => true
  | s, c :: cs => callBound s c && callsInBounds (applyCall s c).1 cs

/-! ### Render cache (`renderer.rs`)

`TerminalRenderer` holds a per-row cache of drawable shape lists; the
shapes themselves are pixel artifacts produced by the GUI toolkit, so
the cache payload is abstracted to a type parameter `α` (only presence
or absence of an entry matters to the invalidation logic).  The pixel
geometry fields (`last_render_dims`, `cached_origin`) belong to the
draw pass, which issues toolkit calls and is not modelled; the
operation handlers below never touch them. -/

/-- Rust `usize::MAX`, the sentinel `renderer.rs` stores in
`dirty_line_count` to mean "everything dirty". -/
def usizeMax : Nat := 2 ^ 64 - 1

/-- Rust `RenderMetrics` from `renderer.rs`. -/
structure RenderMetrics where
  structural_ops : Nat := 0
  visual_ops : Nat := 0
  cursor_ops : Nat := 0
  dirty_line_count : Nat := 0
deriving DecidableEq, BEq

/-- Rust `TerminalRenderer` from `renderer.rs`, with the cached shape lists
abstracted to `α`. -/
structure TerminalRenderer (α : Type) where
  metrics : RenderMetrics
  screen_cache : List (Option α)
deriving DecidableEq, BEq

/-- The cache entry for row `i` (absent both when stored as `None` and
when the cache vector is shorter than `i + 1`). -/
def TerminalRenderer.cacheEntry {α : Type} (r : TerminalRenderer α) (i : Nat) : Option α :=
  r.screen_cache.getD i none

/-- Rust `TerminalRenderer::on_structural_change` from `renderer.rs`:
discard the whole cache and mark everything dirty. -/
def TerminalRenderer.on_structural_change {α : Type} (r : TerminalRenderer α) :
    TerminalRenderer α :=
  { r with
    metrics := { r.metrics with
                  structural_ops := r.metrics.structural_ops + 1,
                  dirty_line_count := usizeMax },
    screen_cache := [] }

/-- Rust `TerminalRenderer::on_visual_change` from `renderer.rs`: bump the
dirty-line counter by the operation's impact, then invalidate a single
row only when exactly one line is dirty, the impact is `Single(row)`,
and `row` is inside the cache; every other case clears the cache. -/
def TerminalRenderer.on_visual_change {α : Type} (r : TerminalRenderer α)
    (op : ScreenOperation) : TerminalRenderer α :=
  let meta := op.metadata
  let dlc := r.metrics.dirty_line_count
  let dlc' :=
    match meta.impact with
    | .single _ => if dlc ≠ usizeMax then dlc + 1 else dlc
    | .multi rows => if dlc ≠ usizeMax then dlc + rows.length else dlc
    | .unbounded => usizeMax
  let cache' :=
    if dlc' = 1 then
      match meta.impact with
      | .single row =>
        if row < r.screen_cache.length then r.screen_cache.set row none
        else []
      | _ => []
    else []
  { r with
    metrics := { r.metrics with
                  visual_ops := r.metrics.visual_ops + 1,
                  dirty_line_count := dlc' },
    screen_cache := cache' }

/-- Rust `TerminalRenderer::on_cursor_change` from `renderer.rs`: the line
cache is untouched. -/
def TerminalRenderer.on_cursor_change {α : Type} (r : TerminalRenderer α) :
    TerminalRenderer α :=
  { r with metrics := { r.metrics with cursor_ops := r.metrics.cursor_ops + 1 } }

/-! ### Input dispatch (`input.rs`)

`poll_and_map` first converts raw GUI events to `InputEvent`s (a
toolkit concern, not modelled: the function below starts from the
already-converted event list) and then maps each event through the
active mode's binding table. -/

/-- The per-event body of the mapping loop in `poll_and_map`
(`input.rs`): find the active mode's definition, scan its bindings for
the first structural match, and in Insert mode suppress the bound
`Backspace` / `Delete` / `MoveCursor` actions (they are handled by the
native text widget); macro targets always pass through. -/
def dispatchEvent (current_mode : TerminalMode) (definitions : List ModeDefinition)
    (event : InputEvent) : Option BindingTarget :=
  match definitions.find? (fun d => d.mode == current_mode) with
  | none => none
  | some d =>
    match d.bindings.find? (fun b => b.event == event) with
    | none => none
    | some binding =>
      if current_mode == TerminalMode.insert then
        match binding.target with
        | .action a =>
          match a with
          | .backspace => none
          | .delete => none
          | .moveCursor _ _ => none
          | _ => some (.action a)
        | .macroRef m => some (.macroRef m)
      else
        some binding.target

/-- Rust `poll_and_map` from `input.rs`, starting from the converted
`InputEvent` list: each event contributes at most one target. -/
def poll_and_map (current_mode : TerminalMode) (definitions : List ModeDefinition)
    (events : List InputEvent) : List BindingTarget :=
  events.filterMap (fun e => dispatchEvent current_mode definitions e)

/-- The binding selected for an event by pure lookup: the first binding
whose event structurally equals the input, in the first definition
matching the active mode. -/
def findBinding (definitions : List ModeDefinition) (mode : TerminalMode)
    (event : InputEvent) : Option KeyBinding :=
  match definitions.find? (fun d => d.mode == mode) with
  | none => none
  | some d => d.bindings.find? (fun b => b.event == event)

/-! ### App-side input mapping (`app.rs`)

`TerminalApp::map_input` predates the `BindingTarget` split: its
binding records carry a bare `Action` (field `action`), as written in
`app.rs`. -/

/-- The key-binding record as used by `app.rs` (`event` plus a bare
`action`). -/
structure AKeyBinding where
  event : InputEvent
  action : Action
deriving DecidableEq, BEq

/-- The mode-definition record as used by `app.rs`. -/
structure AModeDefinition where
  mode : TerminalMode
  bindings : List AKeyBinding
deriving DecidableEq, BEq

/-- The fall-through tail of `TerminalApp::map_input` (`app.rs`): in
Insert mode a text event maps to `AppendChar` of the FIRST character of
its text (`s.chars().next()`); every other case maps to nothing. -/
def insertTextFallback (event : InputEvent) (mode : TerminalMode) : Option Action :=
  if mode == TerminalMode.insert then
    match event with
    | .text s => s.toList.head?.map .appendChar
    | _ => none
  else none

/-- Rust `TerminalApp::map_input` from `app.rs`: first matching binding of
the active mode wins; otherwise the Insert-mode text fallback applies. -/
def map_input (definitions : List AModeDefinition) (event : InputEvent)
    (mode : TerminalMode) : Option Action :=
  match definitions.find? (fun d => d.mode == mode) with
  | some d =>
    match d.bindings.find? (fun b => b.event == event) with
    | some binding => some binding.action
    | none => insertTextFallback event mode
  | none => insertTextFallback event mode

/-- Returns `true` iff some binding of the active mode's definition matches the
event (the condition under which `map_input` does not reach its
fallback). -/
def hasMatchingBinding (definitions : List AModeDefinition) (mode : TerminalMode)
    (event : InputEvent) : Bool :=
  match definitions.find? (fun d => d.mode == mode) with
  | some d => (d.bindings.find? (fun b => b.event == event)).isSome
  | none => false

/-- The list of actions one input event yields through `map_input`
(zero or one: the function returns an `Option`). -/
def mapInputActions (definitions : List AModeDefinition) (event : InputEvent)
    (mode : TerminalMode) : List Action :=
  (map_input definitions event mode).toList

/-! ### Macro resolution (`lua_bridge.rs`)

The embedded Lua interpreter is external; its observable contribution
to `resolve_macro` is (1) whether the name resolves to a function, (2)
whether calling that function succeeds, and (3) the returned value,
which is either a table of entries or something else.  That interface
is captured by `MacroLookup`; `parse_action_table` is translated
directly from the source. -/

/-- Rust `MAX_MACRO_ACTIONS` from `lua_bridge.rs`. -/
def MAX_MACRO_ACTIONS : Nat := 100

/-- Rust `MacroError` from `lua_bridge.rs`. -/
inductive MacroError where
  | notFound (name : String)
  | invalidReturnType (name : String)
  | actionParseError (macroName : String) (value : String)
  | actionLimitExceeded (macroName : String) (limit : Nat)
deriving DecidableEq, BEq

/-- One value of a Lua table iterated by `parse_action_table`: a UTF-8
string, or anything else (non-strings and invalid-UTF-8 strings are
skipped by the source). -/
inductive LuaVal where
  | str (s : String)
  | other
deriving DecidableEq, BEq

/-- What the Lua side delivers for a macro name: no function under
`axiom.macros[name]`, a function whose call raised an error, or a
function that returned — either a table (its values in iteration
order) or a non-table value. -/
inductive MacroLookup where
  | missing
  | callFailed
  | returnedTable (entries : List LuaVal)
  | returnedNonTable
deriving DecidableEq, BEq

/-- The accumulating loop of `LuaEngine::parse_action_table`
(`lua_bridge.rs`): non-string values are skipped; a string when the
accumulator already holds `MAX_MACRO_ACTIONS` actions aborts with
`ActionLimitExceeded`; an unparseable string aborts with
`ActionParseError`; otherwise the parsed action is appended. -/
def parseActionsGo (macroName : String) (acc : List Action) :
    List LuaVal → Except MacroError (List Action)
  | [] => .ok acc
  | .other :: rest => parseActionsGo macroName acc rest
  | .str s :: rest =>
    if acc.length ≥ MAX_MACRO_ACTIONS then
      .error (.actionLimitExceeded macroName MAX_MACRO_ACTIONS)
    else
      match Action.from_str s with
      | some a => parseActionsGo macroName (acc ++ [a]) rest
      | none => .error (.actionParseError macroName s)

/-- Rust `LuaEngine::parse_action_table` from `lua_bridge.rs`. -/
def parse_action_table (macroName : String) (entries : List LuaVal) :
    Except MacroError (List Action) :=
  parseActionsGo macroName [] entries

/-- Rust `LuaEngine::resolve_macro_internal` from `lua_bridge.rs`, over the
Lua environment abstracted as a lookup function.  (`resolve_macro`
additionally records per-name metrics but returns this result
unchanged.) -/
def resolve_macro_internal (env : String → MacroLookup) (name : String) :
    Except MacroError (List Action) :=
  match env name with
  | .missing => .error (.notFound name)
  | .callFailed => .error (.invalidReturnType name)
  | .returnedNonTable => .error (.invalidReturnType name)
  | .returnedTable entries => parse_action_table name entries

/-! ### Config-load merge (`shell.rs`)

The `config load` branch of `execute_command`: the parsed
`ConfigUpdate` is merged field-wise into `ShellState`; the requested
working-directory change happens through the OS (abstracted as `tryCd`,
returning the canonical new directory on success), and the window title
is regenerated afterwards. -/

/-- Rust `ConfigUpdate` from `types.rs`. -/
structure ConfigUpdate where
  prompt : Option String := none
  prompt_color : Option TerminalColor := none
  text_color : Option TerminalColor := none
  window_title : Option String := none
  shortcuts : Option (List Shortcut) := none
  opacity : Option Float := none
  font_size : Option Float := none
  default_cwd : Option String := none
  directory_color : Option TerminalColor := none
  mode_definitions : Option (List ModeDefinition) := none

/-- Rust `ShellState` from `types.rs`. -/
structure ShellState where
  prompt : String
  prompt_color : TerminalColor
  text_color : TerminalColor
  window_title_base : String
  window_title_full : String
  title_updated : Bool
  mode : TerminalMode
  shortcuts : List Shortcut
  opacity : Float
  font_size : Float
  current_dir : String
  directory_color : TerminalColor
  screen : Screen
  input_buffer : String
  mode_definitions : List ModeDefinition

/-- The `actual_cwd` computation of `execute_command`'s `config load`
arm (`shell.rs`): a present `default_cwd` is attempted through the OS
(abstracted as `tryCd`, returning the canonical new directory on
success), an absent one yields nothing. -/
def resolveCwd (update : ConfigUpdate) (tryCd : String → Option String) :
    Option String :=
  match update.default_cwd with
  | some newCwd => tryCd newCwd
  | none => none

/-- The merge block of `execute_command`'s `config load` arm
(`shell.rs`): each present update field overwrites the corresponding
state field; `current_dir` is overwritten exactly when the preceding
directory change produced an `actualCwd`; finally the full window title
is regenerated and the title-updated flag raised. -/
def applyConfigMerge (s0 : ShellState) (update : ConfigUpdate)
    (actualCwd : Option String) : ShellState :=
  let s1 := match update.prompt with
    | some p => { s0 with prompt := p }
    | none => s0
  let s2 := match update.prompt_color with
    | some pc => { s1 with prompt_color := pc }
    | none => s1
  let s3 := match update.text_color with
    | some tc => { s2 with text_color := tc }
    | none => s2
  let s4 := match update.window_title with
    | some wt => { s3 with window_title_base := wt }
    | none => s3
  let s5 := match update.shortcuts with
    | some sh => { s4 with shortcuts := sh }
    | none => s4
  let s6 := match update.opacity with
    | some op => { s5 with opacity := op }
    | none => s5
  let s7 := match update.font_size with
    | some fs => { s6 with font_size := fs }
    | none => s6
  let s8 := match update.directory_color with
    | some dc => { s7 with directory_color := dc }
    | none => s7
  let s9 := match update.mode_definitions with
    | some md => { s8 with mode_definitions := md }
    | none => s8
  let s10 := match actualCwd with
    | some cwd => { s9 with current_dir := cwd }
    | none => s9
  { s10 with
    window_title_full := "[" ++ s10.mode.name ++ "] " ++ s10.window_title_base,
    title_updated := true }

/-- Rust `execute_command`'s `config load` arm (`shell.rs`): resolve the
requested working directory, then apply the field-wise merge. -/
def configLoadMerge (s0 : ShellState) (update : ConfigUpdate)
    (tryCd : String → Option String) : ShellState :=
  applyConfigMerge s0 update (resolveCwd update tryCd)

/-! ### Auxiliary definitions for the statements -/

/-- Whether an impact value reports row `i` as possibly affected (the
spec's reading of "line impact": `Single`/`Multi` name rows, `Unbounded`
may affect every row). -/
def LineImpact.reportsRow : LineImpact → Nat → Bool
  | .single r, i => r == i
  | .multi rows, i => rows.contains i
  | .unbounded, _ => true

/-- Sample empty line. -/
def lineA : Line := { cells := [] }

/-- Sample one-cell line. -/
def lineB : Line := { cells := [Cell.new 'x' ⟨255, 255, 255⟩] }

/-- Sample call sequence exercising push, in-range update, clear, and
the `row == len` append fallback of `update_line`. -/
def demoCalls : List Call :=
  [.pushLine lineA, .updateLine 0 lineB, .clear, .pushLine lineB, .updateLine 1 lineA]

/-- Sample screen with one line and a clean dirty flag. -/
def screenOneLine : Screen := { lines := [lineA], cursor := {}, meta := {} }

/-- Sample renderer: two cached rows, zero pending dirty lines. -/
def rendererDemo : TerminalRenderer Unit :=
  { metrics := {}, screen_cache := [some (), some ()] }

/-- Sample renderer: two cached rows, one pending dirty line. -/
def rendererBusy : TerminalRenderer Unit :=
  { metrics := { dirty_line_count := 1 }, screen_cache := [some (), some ()] }

/-- Sample mode table holding only an Insert mode with no bindings. -/
def emptyInsertDefs : List AModeDefinition :=
  [{ mode := TerminalMode.insert, bindings := [] }]

/-! ## Theorems -/

/-- C5: for every row `r` and line `l`, `UpdateLine(r, l)` is classified
Visual with impact `Single(r)`, and `PushLine(l)` and `Clear` are
classified Structural with `Unbounded` impact. -/
theorem operation_classifier_spec (r : Nat) (l : Line) :
    (ScreenOperation.updateLine r l).category = OperationCategory.visual ∧
    (ScreenOperation.updateLine r l).metadata.impact = LineImpact.single r ∧
    (ScreenOperation.pushLine l).category = OperationCategory.structural ∧
    (ScreenOperation.pushLine l).metadata.impact = LineImpact.unbounded ∧
    ScreenOperation.clear.category = OperationCategory.structural ∧
    ScreenOperation.clear.metadata.impact = LineImpact.unbounded :=
  ⟨rfl, rfl, rfl, rfl, rfl, rfl⟩

/-- C3 (counterexample to the claim as stated): the metadata of
`SetCursor` does report a row as affected — its impact is `Single(0)`,
which names row 0, so it does not carry zero line impact. -/
theorem set_cursor_impact_counterexample :
    (ScreenOperation.setCursor { row := 0, col := 0 }).metadata.impact
      = LineImpact.single 0 ∧
    (ScreenOperation.setCursor { row := 0, col := 0 }).metadata.impact.reportsRow 0
      = true := by
  decide

/-- C3 (amended): for every cursor `c`, `SetCursor(c)` is classified
Cursor category with `caused_scroll = false`, and its impact is the
placeholder `Single(0)` (the cursor is handled on a separate layer). -/
theorem set_cursor_classification (c : Cursor) :
    (ScreenOperation.setCursor c).category = OperationCategory.cursor ∧
    (ScreenOperation.setCursor c).metadata.caused_scroll = false ∧
    (ScreenOperation.setCursor c).metadata.impact = LineImpact.single 0 :=
  ⟨rfl, rfl, rfl⟩

/-- C6: `update_line` is total; a row strictly inside the buffer is
replaced in place (returning `UpdateLine`), `row == lines.len()`
appends via `push_line` (returning `PushLine`), and `row > lines.len()`
likewise appends (returning `PushLine`, without touching the dirty
flag), the line count growing by exactly one in both out-of-range
cases. -/
theorem update_line_total_spec (s : Screen) (l : Line) (r1 r2 r3 : Nat)
    (h1 : r1 < s.lines.length) (h2 : r2 = s.lines.length)
    (h3 : s.lines.length < r3) :
    s.update_line r1 l
      = ({ s with lines := s.lines.set r1 l, meta := { dirty := true } },
         .updateLine r1 l) ∧
    s.update_line r2 l
      = ({ s with lines := s.lines ++ [l], meta := { dirty := true } },
         .pushLine l) ∧
    s.update_line r3 l
      = ({ s with lines := s.lines ++ [l] }, .pushLine l) ∧
    (s.update_line r2 l).1.lines.length = s.lines.length + 1 ∧
    (s.update_line r3 l).1.lines.length = s.lines.length + 1 := by
  have hn2 : ¬ r2 < s.lines.length := by omega
  have hn3lt : ¬ r3 < s.lines.length := by omega
  have hn3eq : ¬ r3 = s.lines.length := by omega
  refine ⟨?_, ?_, ?_, ?_, ?_⟩
  · rw [Screen.update_line, if_pos h1]
  · rw [Screen.update_line, if_neg hn2, if_pos h2]; rfl
  · rw [Screen.update_line, if_neg hn3lt, if_neg hn3eq]
  · rw [Screen.update_line, if_neg hn2, if_pos h2]
    simp [Screen.push_line]
  · rw [Screen.update_line, if_neg hn3lt, if_neg hn3eq]
    simp

/-- C6 (witness): on a one-line screen, rows 0 / 1 / 2 exercise the
replace, append-at-end, and silent-append branches; the line count
grows by one in the last case. -/
theorem update_line_total_spec_witness :
    (Screen.update_line screenOneLine 2 lineB).1.lines.length
      = screenOneLine.lines.length + 1 :=
  (update_line_total_spec screenOneLine lineB 0 1 2
    (by decide) (by decide) (by decide)).2.2.2.2

/-- C10: `push_line`, `clear`, `set_cursor`, and `update_line` with
`row ≤ lines.len()` all set the dirty flag; `update_line` with
`row > lines.len()` appends the line but leaves the dirty flag
unchanged. -/
theorem mutators_dirty_flag (s : Screen) (c : Cursor) (l : Line) (r1 r2 : Nat)
    (h1 : r1 ≤ s.lines.length) (h2 : s.lines.length < r2) :
    (s.push_line l).1.meta.dirty = true ∧
    (s.clear).1.meta.dirty = true ∧
    (s.set_cursor c).1.meta.dirty = true ∧
    (s.update_line r1 l).1.meta.dirty = true ∧
    (s.update_line r2 l).1.meta.dirty = s.meta.dirty ∧
    (s.update_line r2 l).1.lines = s.lines ++ [l] := by
  have hn2lt : ¬ r2 < s.lines.length := by omega
  have hn2eq : ¬ r2 = s.lines.length := by omega
  refine ⟨rfl, rfl, rfl, ?_, ?_, ?_⟩
  · rcases Nat.lt_or_ge r1 s.lines.length with hlt | hge
    · rw [Screen.update_line, if_pos hlt]
    · have heq : r1 = s.lines.length := by omega
      rw [Screen.update_line, if_neg (by omega), if_pos heq]; rfl
  · rw [Screen.update_line, if_neg hn2lt, if_neg hn2eq]
  · rw [Screen.update_line, if_neg hn2lt, if_neg hn2eq]

/-- C10 (witness): on a clean one-line screen, `update_line` at row 5
appends while the dirty flag stays `false`. -/
theorem mutators_dirty_flag_witness :
    (Screen.update_line screenOneLine 0 lineB).1.meta.dirty = true ∧
    (Screen.update_line screenOneLine 5 lineB).1.meta.dirty
      = screenOneLine.meta.dirty ∧
    (Screen.update_line screenOneLine 5 lineB).1.lines
      = screenOneLine.lines ++ [lineB] := by
  have h := mutators_dirty_flag screenOneLine {} lineB 0 5 (by decide) (by decide)
  exact ⟨h.2.2.2.1, h.2.2.2.2.1, h.2.2.2.2.2⟩

/-- Replaying the operation a mutator call returned, against the very
state the call ran on, lands in the call's result state — provided an
`update_line` call does not target `row > lines.len()` (that branch
returns `PushLine` yet skips the dirty flag, so its replay diverges). -/
theorem applyOp_applyCall (s : Screen) (c : Call)
    (h : callBound s c = true) :
    s.applyOp (applyCall s c).2 = (applyCall s c).1 := by
  cases c with
  | pushLine l => rfl
  | clear => rfl
  | updateLine row l =>
    simp only [callBound, decide_eq_true_eq] at h
    rcases Nat.lt_or_ge row s.lines.length with hlt | hge
    · simp [applyCall, Screen.applyOp, Screen.update_line, hlt]
    · have heq : row = s.lines.length := by omega
      subst heq
      simp [applyCall, Screen.applyOp, Screen.update_line, Screen.push_line]

/-- Replaying the operations collected from an in-bounds call sequence,
starting alongside the original run, reproduces the final state. -/
theorem runCalls_replay (calls : List Call) :
    ∀ s : Screen, callsInBounds s calls = true →
      replayOps s (runCalls s calls).2 = (runCalls s calls).1 := by
  induction calls with
  | nil => intro s _; rfl
  | cons c cs ih =>
    intro s h
    rw [callsInBounds, Bool.and_eq_true] at h
    show replayOps s ((applyCall s c).2 :: (runCalls (applyCall s c).1 cs).2)
      = (runCalls (applyCall s c).1 cs).1
    rw [replayOps, applyOp_applyCall s c h.1]
    exact ih (applyCall s c).1 h.2

/-- C1 (counterexample to the claim as stated): the single call
`update_line(1, lineA)` on an empty screen appends the line without
setting the dirty flag but returns `PushLine(lineA)`, whose replay on a
fresh empty screen does set the dirty flag — the replayed screen is not
identical to the mutated one. -/
theorem screen_roundtrip_counterexample :
    replayOps Screen.new (runCalls Screen.new [Call.updateLine 1 lineA]).2
      ≠ (runCalls Screen.new [Call.updateLine 1 lineA]).1 := by
  decide

/-- C1 (amended): for every sequence of `push_line` / `clear` /
`update_line` calls starting from an empty screen in which no
`update_line` targets a row strictly greater than the current line
count, replaying the returned operation sequence against a fresh empty
screen reproduces a screen identical to the mutated one (lines, cursor,
and meta all equal). -/
theorem screen_roundtrip_inbounds (calls : List Call)
    (h : callsInBounds Screen.new calls = true) :
    replayOps Screen.new (runCalls Screen.new calls).2
      = (runCalls Screen.new calls).1 :=
  runCalls_replay calls Screen.new h

/-- C1 (witness): a concrete five-call sequence (push, in-range update,
clear, push, append-at-end update) replays to the identical screen. -/
theorem screen_roundtrip_inbounds_witness :
    replayOps Screen.new (runCalls Screen.new demoCalls).2
      = (runCalls Screen.new demoCalls).1 :=
  screen_roundtrip_inbounds demoCalls (by decide)

/-- C2 (counterexample to the claim as stated): with one dirty line
already pending (`dirty_line_count = 1`), a Visual `Single(0)`
operation clears the WHOLE cache — row 1's entry is not retained. -/
theorem render_cache_retention_counterexample :
    (rendererBusy.on_visual_change (ScreenOperation.updateLine 0 lineA)).cacheEntry 1
      ≠ rendererBusy.cacheEntry 1 := by
  decide

/-- C2 (amended): after a Structural operation every cache row entry is
absent; after a Visual operation with impact `Single(row)` processed
from a state with zero pending dirty lines and `row` inside the cache,
only row `row`'s entry is absent and every other row's entry is
retained.  (In every other visual case the source clears the whole
cache conservatively.) -/
theorem render_cache_invalidation {α : Type} (r : TerminalRenderer α)
    (op : ScreenOperation) (row : Nat)
    (h0 : r.metrics.dirty_line_count = 0)
    (h1 : op.metadata.impact = LineImpact.single row)
    (h2 : row < r.screen_cache.length) :
    (∀ i, (r.on_structural_change).cacheEntry i = none) ∧
    (r.on_visual_change op).cacheEntry row = none ∧
    (∀ j, j ≠ row → (r.on_visual_change op).cacheEntry j = r.cacheEntry j) := by
  have hone : (0 : Nat) ≠ usizeMax := by decide
  refine ⟨?_, ?_, ?_⟩
  · intro i
    simp [TerminalRenderer.on_structural_change, TerminalRenderer.cacheEntry]
  · simp only [TerminalRenderer.on_visual_change, h1, h0, TerminalRenderer.cacheEntry,
      if_pos hone, if_pos rfl, if_pos h2]
    simp [List.getD_eq_getElem?_getD, List.getElem?_set_eq_of_lt _ h2]
  · intro j hj
    simp only [TerminalRenderer.on_visual_change, h1, h0, TerminalRenderer.cacheEntry,
      if_pos hone, if_pos rfl, if_pos h2]
    simp [List.getD_eq_getElem?_getD, List.getElem?_set_ne (Ne.symm hj)]

/-- C2 (witness): on a two-row cache with no pending dirty lines, a
structural event empties the cache; a Visual `Single(0)` event clears
exactly row 0 and keeps row 1. -/
theorem render_cache_invalidation_witness :
    (rendererDemo.on_structural_change).cacheEntry 0 = none ∧
    (rendererDemo.on_visual_change (ScreenOperation.updateLine 0 lineA)).cacheEntry 0 = none ∧
    (rendererDemo.on_visual_change (ScreenOperation.updateLine 0 lineA)).cacheEntry 1
      = rendererDemo.cacheEntry 1 := by
  have h := render_cache_invalidation rendererDemo
    (ScreenOperation.updateLine 0 lineA) 0 rfl rfl (by decide)
  exact ⟨h.1 0, h.2.1, h.2.2 1 (by decide)⟩

/-- C4 (counterexample to the claim as stated): in Insert mode with no
matching binding, the two-character text event `"ab"` yields a single
`AppendChar('a')`, not one append-character action per character. -/
theorem insert_fallback_counterexample :
    mapInputActions emptyInsertDefs (InputEvent.text "ab") TerminalMode.insert
      ≠ "ab".toList.map Action.appendChar := by
  decide

/-- C4 (amended): a text event that matches no binding of the active
Insert-mode definition yields exactly one `AppendChar` holding the
FIRST character of the text (and nothing when the text is empty);
characters beyond the first are dropped. -/
theorem insert_fallback_first_char (definitions : List AModeDefinition) (t : String)
    (h : hasMatchingBinding definitions TerminalMode.insert (InputEvent.text t) = false) :
    map_input definitions (InputEvent.text t) TerminalMode.insert
      = t.toList.head?.map Action.appendChar := by
  unfold hasMatchingBinding at h
  unfold map_input
  cases hd : definitions.find? (fun d => d.mode == TerminalMode.insert) with
  | none => rfl
  | some d =>
    rw [hd] at h
    have h' : (d.bindings.find? (fun b => b.event == InputEvent.text t)).isSome
        = false := h
    have key : ∀ o : Option AKeyBinding, o.isSome = false →
        (match o with
         | some binding => some binding.action
         | none => insertTextFallback (InputEvent.text t) TerminalMode.insert)
          = t.toList.head?.map Action.appendChar := by
      intro o ho
      cases o with
      | none => rfl
      | some b => simp at ho
    exact key _ h'

/-- C4 (witness): with an Insert mode that has no bindings, the text
event `"ab"` maps to the single action `AppendChar` of its first
character. -/
theorem insert_fallback_first_char_witness :
    map_input emptyInsertDefs (InputEvent.text "ab") TerminalMode.insert
      = "ab".toList.head?.map Action.appendChar :=
  insert_fallback_first_char emptyInsertDefs "ab" (by decide)

/-- C8: the dispatch of one event equals the first-match binding lookup
followed, in Insert mode only, by the suppression of bound `Backspace`,
`Delete`, and `MoveCursor` actions; every other bound action and every
macro target passes through, and outside Insert mode everything passes
through. -/
theorem dispatch_insert_filter (mode : TerminalMode)
    (definitions : List ModeDefinition) (event : InputEvent) :
    dispatchEvent mode definitions event
      = (findBinding definitions mode event).bind (fun b =>
          if mode == TerminalMode.insert then
            match b.target with
            | .action .backspace => none
            | .action .delete => none
            | .action (.moveCursor _ _) => none
            | t => some t
          else
            some b.target) := by
  unfold dispatchEvent findBinding
  cases hd : definitions.find? (fun d => d.mode == mode) with
  | none => rfl
  | some d =>
    have key : ∀ o : Option KeyBinding,
        (match o with
         | none => none
         | some binding =>
           if mode == TerminalMode.insert then
             match binding.target with
             | BindingTarget.action a =>
               match a with
               | Action.backspace => none
               | Action.delete => none
               | Action.moveCursor _ _ => none
               | _ => some (BindingTarget.action a)
             | BindingTarget.macroRef m => some (BindingTarget.macroRef m)
           else some binding.target)
          = o.bind (fun b =>
              if mode == TerminalMode.insert then
                match b.target with
                | BindingTarget.action Action.backspace => none
                | BindingTarget.action Action.delete => none
                | BindingTarget.action (Action.moveCursor _ _) => none
                | t => some t
              else some b.target) := by
      intro o
      cases o with
      | none => rfl
      | some binding =>
        obtain ⟨ev, tgt⟩ := binding
        by_cases hm : (mode == TerminalMode.insert) = true
        · cases tgt with
          | action a => cases a <;> simp [hm]
          | macroRef m => simp [hm]
        · cases tgt with
          | action a => cases a <;> simp [hm]
          | macroRef m => simp [hm]
    exact key (d.bindings.find? (fun b => b.event == event))

/-- The action-table loop keeps its accumulator at or below the limit:
starting from an in-budget accumulator it either succeeds with at most
`MAX_MACRO_ACTIONS` actions or aborts with an error. -/
theorem parseActionsGo_bounded (mName : String) (entries : List LuaVal) :
    ∀ acc : List Action, acc.length ≤ MAX_MACRO_ACTIONS →
      (∃ acts, parseActionsGo mName acc entries = .ok acts
        ∧ acts.length ≤ MAX_MACRO_ACTIONS) ∨
      (∃ e, parseActionsGo mName acc entries = .error e) := by
  induction entries with
  | nil =>
    intro acc hacc
    exact Or.inl ⟨acc, rfl, hacc⟩
  | cons v rest ih =>
    intro acc hacc
    cases v with
    | other => exact ih acc hacc
    | str s =>
      by_cases hlen : acc.length ≥ MAX_MACRO_ACTIONS
      · refine Or.inr ⟨.actionLimitExceeded mName MAX_MACRO_ACTIONS, ?_⟩
        rw [parseActionsGo, if_pos hlen]
      · cases hp : Action.from_str s with
        | some a =>
          have hlen' : (acc ++ [a]).length ≤ MAX_MACRO_ACTIONS := by
            rw [List.length_append, List.length_singleton]; omega
          have step : parseActionsGo mName acc (.str s :: rest)
              = parseActionsGo mName (acc ++ [a]) rest := by
            rw [parseActionsGo, if_neg hlen, hp]
          rw [step]
          exact ih (acc ++ [a]) hlen'
        | none =>
          refine Or.inr ⟨.actionParseError mName s, ?_⟩
          rw [parseActionsGo, if_neg hlen, hp]

/-- C7: for every Lua environment and macro name, `resolve_macro`
either returns a list of at most `MAX_MACRO_ACTIONS` (100) actions or
returns a classified `MacroError` — the error result carries no
actions, so no partial prefix of a failed macro is ever emitted. -/
theorem resolve_macro_bounded (env : String → MacroLookup) (name : String) :
    (∃ acts, resolve_macro_internal env name = .ok acts
      ∧ acts.length ≤ MAX_MACRO_ACTIONS) ∨
    (∃ e, resolve_macro_internal env name = .error e) := by
  unfold resolve_macro_internal
  cases env name with
  | missing => exact Or.inr ⟨_, rfl⟩
  | callFailed => exact Or.inr ⟨_, rfl⟩
  | returnedNonTable => exact Or.inr ⟨_, rfl⟩
  | returnedTable entries =>
    exact parseActionsGo_bounded name entries [] (by decide)

/-- C9: applying a parsed `ConfigUpdate` is a field-wise merge — each
of the nine optional fields overwrites its `ShellState` counterpart
exactly when present and leaves it untouched when absent, the working
directory changes only when `default_cwd` is present and the directory
change succeeds, the untouched fields (`mode`, `screen`,
`input_buffer`) are preserved, and the full window title is regenerated
with the title-updated flag raised. -/
theorem config_merge_fieldwise (s : ShellState) (u : ConfigUpdate)
    (tryCd : String → Option String) :
    configLoadMerge s u tryCd =
      { s with
        prompt := u.prompt.getD s.prompt,
        prompt_color := u.prompt_color.getD s.prompt_color,
        text_color := u.text_color.getD s.text_color,
        window_title_base := u.window_title.getD s.window_title_base,
        shortcuts := u.shortcuts.getD s.shortcuts,
        opacity := u.opacity.getD s.opacity,
        font_size := u.font_size.getD s.font_size,
        directory_color := u.directory_color.getD s.directory_color,
        mode_definitions := u.mode_definitions.getD s.mode_definitions,
        current_dir := (u.default_cwd.bind tryCd).getD s.current_dir,
        window_title_full :=
          "[" ++ s.mode.name ++ "] " ++ u.window_title.getD s.window_title_base,
        title_updated := true } := by
  have hmerge : ∀ A : Option String,
      applyConfigMerge s u A =
        { s with
          prompt := u.prompt.getD s.prompt,
          prompt_color := u.prompt_color.getD s.prompt_color,
          text_color := u.text_color.getD s.text_color,
          window_title_base := u.window_title.getD s.window_title_base,
          shortcuts := u.shortcuts.getD s.shortcuts,
          opacity := u.opacity.getD s.opacity,
          font_size := u.font_size.getD s.font_size,
          directory_color := u.directory_color.getD s.directory_color,
          mode_definitions := u.mode_definitions.getD s.mode_definitions,
          current_dir := A.getD s.current_dir,
          window_title_full :=
            "[" ++ s.mode.name ++ "] " ++ u.window_title.getD s.window_title_base,
          title_updated := true } := by
    obtain ⟨p, pc, tc, wt, sh, op, fs, dcwd, dc, md⟩ := u
    intro A
    cases A <;> cases p <;> cases pc <;> cases tc <;> cases wt <;> cases sh <;>
      cases op <;> cases fs <;> cases dc <;> cases md <;> rfl
  have hres : resolveCwd u tryCd = u.default_cwd.bind tryCd := by
    cases h : u.default_cwd <;> simp [resolveCwd, h]
  rw [configLoadMerge, hmerge (resolveCwd u tryCd), hres]

end Axiomterm
